import Mathlib

/-!
Shallow embedding of the Inkwell creative-writing app (repository
`Raindancer118/inkwell`): the data model from `src/types.ts` and the state
transitions coded in `src/App.tsx` / `src/services/geminiService.ts`.
Machine-level external inputs (the `Date.now()` clock, the `Math.random()`
stream, gateway responses and the behaviour of `JSON.parse` on them) are
passed in explicitly, so every operation is a pure function on an explicit
application state.
-/

namespace Inkwell

/-- Beat record from `src/types.ts`: the smallest narrative unit.  Optional
fields of the TypeScript interface become `Option` fields. -/
structure Beat where
  id : String
  title : String
  description : String
  draft : Option String := none
  completed : Option Bool := none
deriving Repr, DecidableEq

/-- Chapter record from `src/types.ts`: an id, a title and an ordered beat list. -/
structure Chapter where
  id : String
  title : String
  beats : List Beat
deriving Repr, DecidableEq

/-- LoreEntry record from `src/types.ts`. -/
structure LoreEntry where
  id : String
  category : String
  content : String
deriving Repr, DecidableEq

/-- Character record from `src/types.ts`. -/
structure Character where
  id : String
  name : String
  role : String
  description : String
  traits : List String
  imageUrl : Option String := none
  rationale : Option String := none
deriving Repr, DecidableEq

/-- Location record from `src/types.ts`. -/
structure Location where
  id : String
  name : String
  atmosphere : String
  description : String
  imageUrl : Option String := none
  rationale : Option String := none
deriving Repr, DecidableEq

/-- WorldSettings record from `src/types.ts`. -/
structure WorldSettings where
  genre : String
  fantasyLevel : Nat
  techLevel : Nat
  tone : String
  proseStyle : String
  language : String
  criticismLevel : Nat
deriving Repr, DecidableEq

/-- Element type of `StoryAnalysis.suggestedBeats` in `src/types.ts`. -/
structure SuggestedBeat where
  chapterId : String
  title : String
  description : String
  rationale : String
deriving Repr, DecidableEq

/-- Element type of `StoryAnalysis.suggestedChapterFlow` in `src/types.ts`. -/
structure SuggestedChapterFlow where
  chapterId : String
  suggestedBeatIds : List String
  reasoning : String
deriving Repr, DecidableEq

/-- Element type of `StoryAnalysis.proposedLore` in `src/types.ts`
(a `LoreEntry` extended with a rationale). -/
structure ProposedLore where
  id : String
  category : String
  content : String
  rationale : String
deriving Repr, DecidableEq

/-- StoryAnalysis record from `src/types.ts`: the ephemeral result of a Deep
Scan. -/
structure StoryAnalysis where
  consistency : String
  suggestions : List String
  suggestedBeats : List SuggestedBeat
  suggestedChapterFlow : List SuggestedChapterFlow
  proposedLore : List ProposedLore
  proposedCharacters : List Character
  proposedLocations : List Location
deriving Repr, DecidableEq

/-- Shape of the JSON object the Incidental-Entity Detector asks the gateway
for (`sentinelCheck` in `src/App.tsx`): found flag, entity type, name and
description.  The field `extraId` stands for an id field the AI may volunteer
beyond the requested schema; the app never reads it. -/
structure SentinelData where
  found : Bool
  type : String
  name : String
  description : String
  extraId : Option String := none
deriving Repr, DecidableEq

/-- Contents of the `suggestedEntity` slot in `src/App.tsx`: the object
`setSuggestedEntity` stores is the pair of `data.type` and the parsed data. -/
structure Suggestion where
  type : String
  data : SentinelData
deriving Repr, DecidableEq

/-- Initial `WorldSettings` value from the `useState` call in `src/App.tsx`. -/
def initialSettings : WorldSettings :=
  { genre := "Epic Fantasy", fantasyLevel := 50, techLevel := 10, tone := "Serious",
    proseStyle := "Lyrical", language := "English", criticismLevel := 55 }

/-- The pieces of React component state in `src/App.tsx` that the verified
operations read or write. -/
structure AppState where
  chapters : List Chapter := []
  characters : List Character := []
  locations : List Location := []
  lore : List LoreEntry := []
  scratchpadText : String := ""
  analysis : Option StoryAnalysis := none
  suggestedEntity : Option Suggestion := none
  loading : Bool := false
  settings : WorldSettings := initialSettings
deriving Repr, DecidableEq

/-! ### Entity creation (Add Chapter / Add Character / Add Location buttons) -/

/-- Add Chapter button of the plot tab (`src/App.tsx` line 290): appends a
chapter with one seed beat.  `nowCh` and `nowBeat` are the values of the two
`Date.now()` calls made while building the object literal. -/
def addChapter (st : AppState) (nowCh nowBeat : Nat) : AppState :=
  { st with chapters := st.chapters ++
      [{ id := "ch-" ++ Nat.repr nowCh, title := "New Chapter",
         beats := [{ id := "b-" ++ Nat.repr nowBeat, title := "Opening Beat",
                     description := "What happens next?" }] }] }

/-- Add Character button of the characters tab (`src/App.tsx` line 341). -/
def addCharacter (st : AppState) (now : Nat) : AppState :=
  { st with characters := st.characters ++
      [{ id := "c-" ++ Nat.repr now, name := "New Persona", role := "Protagonist",
         description := "", traits := [] }] }

/-- Add Location button of the locations tab (`src/App.tsx` line 317). -/
def addLocation (st : AppState) (now : Nat) : AppState :=
  { st with locations := st.locations ++
      [{ id := "l-" ++ Nat.repr now, name := "New Region", atmosphere := "Vivid",
         description := "" }] }

/-- One user-triggered creation event together with the clock value(s)
`Date.now()` returned during it. -/
inductive AddOp where
  | chapter (nowCh nowBeat : Nat)
  | character (now : Nat)
  | location (now : Nat)
deriving Repr, DecidableEq

/-- Applies one creation event to the state. -/
def applyAdd (st : AppState) : AddOp → AppState
  | .chapter nc nb => addChapter st nc nb
  | .character n => addCharacter st n
  | .location n => addLocation st n

/-- Runs a sequence of creation events. -/
def runAdds (st : AppState) (ops : List AddOp) : AppState :=
  ops.foldl applyAdd st

/-- Clock values consumed for chapter ids in a sequence of creation events. -/
def chapterTimes : List AddOp → List Nat
  | [] => []
  | .chapter nc _ :: rest => nc :: chapterTimes rest
  | .character _ :: rest => chapterTimes rest
  | .location _ :: rest => chapterTimes rest

/-- Clock values consumed for character ids in a sequence of creation events. -/
def characterTimes : List AddOp → List Nat
  | [] => []
  | .chapter _ _ :: rest => characterTimes rest
  | .character n :: rest => n :: characterTimes rest
  | .location _ :: rest => characterTimes rest

/-- Clock values consumed for location ids in a sequence of creation events. -/
def locationTimes : List AddOp → List Nat
  | [] => []
  | .chapter _ _ :: rest => locationTimes rest
  | .character _ :: rest => locationTimes rest
  | .location n :: rest => n :: locationTimes rest

/-! ### Beat draft editing -/

/-- Updater passed to `setChapters` by `updateBeatDraft` (`src/App.tsx` lines
143-146): map over chapters, and inside the chapter whose id matches, map over
beats replacing the draft of the beat whose id matches. -/
def updateBeatDraft (chapters : List Chapter) (chapterId beatId newDraft : String) :
    List Chapter :=
  chapters.map fun ch =>
    if ch.id = chapterId then
      { ch with beats := ch.beats.map fun bt =>
          if bt.id = beatId then { bt with draft := some newDraft } else bt }
    else ch

/-! ### Incidental-Entity Detector -/

/-- Trigger condition of `sentinelCheck` (`src/App.tsx` line 149):
`text.length > 50 && text.length % 350 < 20`. -/
def sentinelCond (len : Nat) : Bool :=
  decide (50 < len) && decide (len % 350 < 20)

/-- Behaviour of the JavaScript expression `res || "..."` used on the chat
response before `JSON.parse`: an absent (`undefined`) or empty response text
falls back to the empty-object literal. -/
def jsonTextOrEmpty (res : Option String) : String :=
  match res with
  | some s => if s.isEmpty then "\x7b\x7d" else s
  | none => "\x7b\x7d"

/-- Environment of one `sentinelCheck` invocation: the outcome of the awaited
`chatWithInkwell` call (which may reject, and whose response text may be
absent), and the behaviour of `JSON.parse` on the text handed to it (which may
throw or yield a parsed object). -/
structure SentinelEnv where
  chat : Except Unit (Option String)
  parse : String → Except Unit SentinelData

/-- Observable outcome of one `sentinelCheck` call: whether a detection
request was issued to the gateway, and the value left in the
`suggestedEntity` slot wrapped in `Except` to record whether an exception
escaped the function. -/
structure SentinelOut where
  requested : Bool
  outcome : Except Unit (Option Suggestion)
deriving Repr

/-- Incidental-Entity Detector `sentinelCheck` (`src/App.tsx` lines 148-160).
When the length condition holds it issues one gateway request and runs the
try-block; the surrounding `catch (e) \x7b\x7d` swallows every failure, so the
returned `outcome` is built with `Except.ok` around whatever the try-block
left in the slot (`prior` when the block threw before `setSuggestedEntity`). -/
def sentinelCheck (text : String) (prior : Option Suggestion) (env : SentinelEnv) :
    SentinelOut :=
  if sentinelCond text.length then
    let tryBlock : Except Unit (Option Suggestion) := do
      let res ← env.chat
      let data ← env.parse (jsonTextOrEmpty res)
      pure (if data.found then some { type := data.type, data := data } else prior)
    { requested := true,
      outcome := .ok (match tryBlock with | .ok s => s | .error _ => prior) }
  else
    { requested := false, outcome := .ok prior }

/-- Failure modes of one detector invocation named by the spec: the gateway
call rejects, or its response fails to parse, or the parsed object lacks a
truthy `found` field. -/
def sentinelFailed (env : SentinelEnv) : Prop :=
  env.chat = .error () ∨
  (∃ res, env.chat = .ok res ∧ env.parse (jsonTextOrEmpty res) = .error ()) ∨
  (∃ res data, env.chat = .ok res ∧ env.parse (jsonTextOrEmpty res) = .ok data ∧
    data.found = false)

/-! ### Deep Scan (runAnalysis / analyzePlot) -/

/-- Environment of one `analyzePlot` call (`src/services/geminiService.ts`
lines 89-115): the awaited gateway response text (the call may reject) and the
behaviour of `JSON.parse` on it. -/
structure AnalyzeEnv where
  call : Except Unit (Option String)
  parse : String → Except Unit StoryAnalysis

/-- Gateway helper `analyzePlot`: awaits the model call and then runs
`JSON.parse` on `response.text` with the empty-object fallback.  The function
has no catch, so a rejected call or a parse failure propagates. -/
def analyzePlot (env : AnalyzeEnv) : Except Unit StoryAnalysis := do
  let res ← env.call
  env.parse (jsonTextOrEmpty res)

/-- Manuscript snapshot built inside `runAnalysis` (`src/App.tsx` lines
131-133): chapter titles and beat drafts concatenated in order, or the
scratchpad when no chapters exist. -/
def manuscriptSnapshot (st : AppState) : String :=
  if st.chapters.length > 0 then
    String.intercalate "\n\n" (st.chapters.map fun c =>
      "Chapter: " ++ c.title ++ "\n" ++
        String.intercalate "\n" (c.beats.map fun b => b.draft.getD ""))
  else
    st.scratchpadText

/-- The argument tuple `runAnalysis` actually passes to `analyzePlot`
(`src/App.tsx` line 135): chapters, characters, locations, settings, lore. -/
def runAnalysisRequest (st : AppState) :
    List Chapter × List Character × List Location × WorldSettings × List LoreEntry :=
  (st.chapters, st.characters, st.locations, st.settings, st.lore)

/-- Deep Scan handler `runAnalysis` (`src/App.tsx` lines 127-141).  The body
is a try block with only a `finally` clearing the loading flag: on success the
analysis slot is replaced wholesale, on failure it is untouched and the
rejection escapes.  The first component records whether an exception escaped
the call. -/
def runAnalysis (st : AppState) (env : AnalyzeEnv) : Except Unit Unit × AppState :=
  match analyzePlot env with
  | .ok r => (.ok (), { st with analysis := some r, loading := false })
  | .error e => (.error e, { st with loading := false })

/-! ### File import (handleFileUpload merge step) -/

/-- Extracted beat as returned by `extractFromText`: title and description per
the response schema, plus whatever id the AI may have volunteered. -/
structure ExtBeat where
  id : Option String := none
  title : String
  description : String
deriving Repr, DecidableEq

/-- Extracted chapter as returned by `extractFromText`. -/
structure ExtChapter where
  id : Option String := none
  title : String
  beats : List ExtBeat
deriving Repr, DecidableEq

/-- Extracted character as returned by `extractFromText`. -/
structure ExtCharacter where
  id : Option String := none
  name : String
  role : String
  description : String
deriving Repr, DecidableEq

/-- Extracted location as returned by `extractFromText`. -/
structure ExtLocation where
  id : Option String := none
  name : String
  atmosphere : String
  description : String
deriving Repr, DecidableEq

/-- Result object of `extractFromText`; each collection field may be absent
from the parsed JSON, in which case the corresponding merge branch is
skipped. -/
structure Extraction where
  chapters : Option (List ExtChapter) := none
  characters : Option (List ExtCharacter) := none
  locations : Option (List ExtLocation) := none
deriving Repr, DecidableEq

/-- Re-keying of extracted beats (`src/App.tsx` line 113), threading the
`Math.random()` draw counter: draw `k` keys the first beat, and the final
counter is returned. -/
def freshBeats (rnd : Nat → String) : List ExtBeat → Nat → List Beat × Nat
  | [], k => ([], k)
  | b :: rest, k =>
    let tail := freshBeats rnd rest (k + 1)
    ({ id := "b-" ++ rnd k, title := b.title, description := b.description } :: tail.1,
      tail.2)

/-- Re-keying of extracted chapters (`src/App.tsx` lines 111-114): each
chapter consumes one draw for its own id and then one per beat, in source
evaluation order. -/
def freshChapters (rnd : Nat → String) : List ExtChapter → Nat → List Chapter × Nat
  | [], k => ([], k)
  | ch :: rest, k =>
    let bs := freshBeats rnd ch.beats (k + 1)
    let tail := freshChapters rnd rest bs.2
    ({ id := "ch-" ++ rnd k, title := ch.title, beats := bs.1 } :: tail.1, tail.2)

/-- Re-keying of extracted characters (`src/App.tsx` line 116); traits are
reset to the empty list. -/
def freshCharacters (rnd : Nat → String) : List ExtCharacter → Nat → List Character × Nat
  | [], k => ([], k)
  | c :: rest, k =>
    let tail := freshCharacters rnd rest (k + 1)
    ({ id := "c-" ++ rnd k, name := c.name, role := c.role,
       description := c.description, traits := [] } :: tail.1, tail.2)

/-- Re-keying of extracted locations (`src/App.tsx` line 117). -/
def freshLocations (rnd : Nat → String) : List ExtLocation → Nat → List Location × Nat
  | [], k => ([], k)
  | l :: rest, k =>
    let tail := freshLocations rnd rest (k + 1)
    ({ id := "l-" ++ rnd k, name := l.name, atmosphere := l.atmosphere,
       description := l.description } :: tail.1, tail.2)

/-- Chapters branch of the merge step of `handleFileUpload` (`src/App.tsx`
lines 110-115): re-keyed replacement chapters when the extraction carries a
chapters field, the untouched prior chapters otherwise; second component is
the draw counter after this branch. -/
def importChapterPart (st : AppState) (ext : Extraction) (rnd : Nat → String) :
    List Chapter × Nat :=
  match ext.chapters with
  | some ecs => freshChapters rnd ecs 0
  | none => (st.chapters, 0)

/-- Characters branch of the merge step (`src/App.tsx` line 116): the
re-keyed characters to append, and the draw counter after this branch. -/
def importCharacterPart (st : AppState) (ext : Extraction) (rnd : Nat → String) :
    List Character × Nat :=
  match ext.characters with
  | some ecs => freshCharacters rnd ecs (importChapterPart st ext rnd).2
  | none => ([], (importChapterPart st ext rnd).2)

/-- Locations branch of the merge step (`src/App.tsx` line 117): the re-keyed
locations to append. -/
def importLocationPart (st : AppState) (ext : Extraction) (rnd : Nat → String) :
    List Location :=
  match ext.locations with
  | some els => (freshLocations rnd els (importCharacterPart st ext rnd).2).1
  | none => []

/-- Merge step of `handleFileUpload` (`src/App.tsx` lines 110-117), the
operation the spec calls `importExtracted`.  When the extraction has a
chapters field the chapters collection is REPLACED by the re-keyed extracted
chapters (`setChapters(extracted.chapters.map(...))`); extracted characters
and locations are APPENDED to the existing collections.  `rnd` is the stream
of `Math.random()` draws in evaluation order. -/
def importExtracted (st : AppState) (ext : Extraction) (rnd : Nat → String) : AppState :=
  { st with
    chapters := (importChapterPart st ext rnd).1,
    characters := st.characters ++ (importCharacterPart st ext rnd).1,
    locations := st.locations ++ importLocationPart st ext rnd }

/-- Every id present in a state before an import: chapter ids, beat ids,
character ids and location ids. -/
def allIds (st : AppState) : List String :=
  st.chapters.map Chapter.id ++
    (st.chapters.map fun ch => ch.beats.map Beat.id).flatten ++
    st.characters.map Character.id ++ st.locations.map Location.id

/-! ### Proposal acceptance (Inscribe) -/

/-- Inscribe button of the write tab (`src/App.tsx` lines 273-277): turns the
outstanding suggestion into a canonical entity with an id freshly minted from
the clock, then clears the slot. -/
def inscribeSuggestion (st : AppState) (sugg : Suggestion) (now : Nat) : AppState :=
  if sugg.type = "character" then
    { st with
      characters := st.characters ++
        [{ id := "c-" ++ Nat.repr now, name := sugg.data.name, role := "Secondary",
           description := sugg.data.description, traits := [] }],
      suggestedEntity := none }
  else
    { st with
      locations := st.locations ++
        [{ id := "l-" ++ Nat.repr now, name := sugg.data.name,
           atmosphere := "Atmospheric", description := sugg.data.description }],
      suggestedEntity := none }

/-! ### Image generation write-back (triggerVisual) -/

/-- Which roster an image-generation request targets. -/
inductive VisualType where
  | character
  | location
deriving Repr, DecidableEq

/-- Write-back performed when the `visualizeAsset` promise inside
`triggerVisual` resolves (`src/App.tsx` lines 90-94): guarded by the
truthiness of the returned url, then a keyed map over the matching roster. -/
def resolveVisual (ty : VisualType) (id : String) (url : Option String)
    (st : AppState) : AppState :=
  match url with
  | none => st
  | some u =>
    if u.isEmpty then st
    else
      match ty with
      | .character =>
        { st with characters := st.characters.map fun c =>
            if c.id = id then { c with imageUrl := some u } else c }
      | .location =>
        { st with locations := st.locations.map fun l =>
            if l.id = id then { l with imageUrl := some u } else l }

/-! ### Concrete sample inputs used by witnesses and counterexamples -/

/-- A text of length `n` (all letter a), for exercising the detector trigger. -/
def sampleText (n : Nat) : String :=
  String.mk (List.replicate n 'a')

/-- A gateway environment for the detector whose call rejects. -/
def envC5 : SentinelEnv :=
  { chat := .error (), parse := fun _ => .error () }

/-- A gateway environment for the detector whose call rejects. -/
def envC10fail : SentinelEnv :=
  { chat := .error (), parse := fun _ => .error () }

/-- A prior analysis result, to show it survives a failed Deep Scan. -/
def priorAnalysis : StoryAnalysis :=
  { consistency := "The tale holds together.", suggestions := [], suggestedBeats := [],
    suggestedChapterFlow := [], proposedLore := [], proposedCharacters := [],
    proposedLocations := [] }

/-- A state holding a prior analysis result. -/
def stC2 : AppState :=
  { analysis := some priorAnalysis, loading := true }

/-- An analysis environment whose gateway call rejects. -/
def envC2fail : AnalyzeEnv :=
  { call := .error (), parse := fun _ => .error () }

/-- A state with no chapters and a non-empty scratchpad. -/
def stSnapA : AppState :=
  { scratchpadText := "A lone rider crossed the dunes." }

/-- The same state as `stSnapA` except for the scratchpad. -/
def stSnapB : AppState :=
  { scratchpadText := "" }

/-- A two-chapter state with drafted beats, to evaluate the snapshot shape. -/
def stTwoCh : AppState :=
  { chapters :=
      [{ id := "ch-1", title := "One",
         beats := [{ id := "b-1", title := "A", description := "", draft := some "alpha" },
                   { id := "b-2", title := "B", description := "", draft := some "beta" }] },
       { id := "ch-2", title := "Two",
         beats := [{ id := "b-3", title := "C", description := "", draft := some "gamma" }] }],
    scratchpadText := "ignored" }

/-- A pre-existing chapter that an import with chapters destroys. -/
def chOld : Chapter :=
  { id := "ch-old", title := "Old", beats := [] }

/-- Pre-import state for the chapter-replacement counterexample. -/
def stC3 : AppState :=
  { chapters := [chOld] }

/-- Extraction carrying one chapter. -/
def extC3 : Extraction :=
  { chapters := some [{ title := "New", beats := [] }] }

/-- Constant random stream for the chapter-replacement counterexample. -/
def rndC3 : Nat → String :=
  fun _ => "r"

/-- Extraction carrying one character, to exercise the append branch of the
merge. -/
def extC3c : Extraction :=
  { characters :=
      some [{ name := "Smith", role := "Secondary", description := "forges" }] }

/-- Pre-import state for the id-reuse counterexample: a character whose id is
the character prefix followed by the very value the random stream returns. -/
def stC7 : AppState :=
  { characters :=
      [{ id := "c-Z", name := "Old", role := "Protagonist", description := "",
         traits := [] }] }

/-- Extraction carrying one character. -/
def extC7 : Extraction :=
  { characters := some [{ name := "Dup", role := "Secondary", description := "" }] }

/-- Random stream that reproduces the suffix of the pre-existing id. -/
def rndC7 : Nat → String :=
  fun _ => "Z"

/-- Pre-import state for the amended-C7 witness. -/
def stC7w : AppState :=
  { characters :=
      [{ id := "c-olda", name := "Keeper", role := "Protagonist", description := "",
         traits := [] }] }

/-- Extraction for the amended-C7 witness. -/
def extC7w : Extraction :=
  { characters :=
      some [{ name := "Lantern Bearer", role := "Secondary",
              description := "seen once" }] }

/-- Random stream whose draws never reproduce an id of `stC7w`. -/
def rndW : Nat → String :=
  fun _ => "w"

/-- An outstanding character suggestion, as in the spec's example, carrying a
volunteered AI id that must be ignored. -/
def suggThorne : Suggestion :=
  { type := "character",
    data := { found := true, type := "character", name := "Thorne",
              description := "A wandering smith", extraId := some "ai-17" } }

/-- A state with one character and one location, for the stale write-back
witness. -/
def stC8 : AppState :=
  { characters :=
      [{ id := "c-keeper", name := "Keeper", role := "Protagonist",
         description := "", traits := [] }],
    locations :=
      [{ id := "l-haven", name := "Haven", atmosphere := "Calm",
         description := "" }] }

/-- First beat of the draft-update witness fixture. -/
def bW1 : Beat :=
  { id := "b-10", title := "Hook", description := "start" }

/-- Second beat of the draft-update witness fixture. -/
def bW2 : Beat :=
  { id := "b-20", title := "Turn", description := "middle" }

/-- Third beat of the draft-update witness fixture, holding an old draft. -/
def bW3 : Beat :=
  { id := "b-30", title := "Fall", description := "end", draft := some "old text" }

/-- First chapter of the draft-update witness fixture. -/
def chWA : Chapter :=
  { id := "ch-A", title := "Alpha", beats := [bW1] }

/-- Second chapter of the draft-update witness fixture. -/
def chWB : Chapter :=
  { id := "ch-B", title := "Beta", beats := [bW2, bW3] }

/-- Decimal character list of a natural number, most significant digit first;
reference form of the output of `Nat.toDigits 10`. -/
def natChars (n : Nat) : List Char :=
  if n < 10 then [Nat.digitChar n]
  else natChars (n / 10) ++ [Nat.digitChar (n % 10)]
termination_by n
decreasing_by omega

end Inkwell

namespace Inkwell

/-! ### Generic helper lemmas -/

/-- Binding a rejected `Except` short-circuits. -/
theorem exceptBindErr {α β : Type} (f : α → Except Unit β) :
    (Except.error () >>= f) = Except.error () := rfl

/-- Binding a successful `Except` applies the continuation. -/
theorem exceptBindOk {α β : Type} (a : α) (f : α → Except Unit β) :
    (Except.ok a >>= f : Except Unit β) = f a := rfl

/-- Unfolding equation for the reference digit list. -/
theorem natChars_eq (n : Nat) :
    natChars n =
      if n < 10 then [Nat.digitChar n]
      else natChars (n / 10) ++ [Nat.digitChar (n % 10)] := by
  rw [natChars]

/-- Characters of a number never form the empty list. -/
theorem natChars_ne_nil (n : Nat) : natChars n ≠ [] := by
  rw [natChars_eq n]
  split
  · simp
  · simp

/-- With enough fuel, the core digit loop prepends exactly the decimal
characters of its argument. -/
theorem toDigitsCore_eq_natChars :
    ∀ (f n : Nat) (ds : List Char), n < f →
      Nat.toDigitsCore 10 f n ds = natChars n ++ ds := by
  intro f
  induction f with
  | zero => intro n ds h; omega
  | succ f ih =>
    intro n ds h
    simp only [Nat.toDigitsCore]
    by_cases h10 : n / 10 = 0
    · have hn : n < 10 := by omega
      rw [if_pos h10, natChars_eq n, if_pos hn, Nat.mod_eq_of_lt hn]
      simp
    · have hdiv : n / 10 < f := by
        have h1 : n / 10 < n := Nat.div_lt_self (by omega) (by omega)
        omega
      rw [if_neg h10, ih (n / 10) _ hdiv, natChars_eq n, if_neg (by omega : ¬ n < 10)]
      simp

/-- The decimal printer agrees with the reference digit list. -/
theorem natRepr_eq_natChars (n : Nat) : Nat.repr n = (natChars n).asString := by
  unfold Nat.repr Nat.toDigits
  rw [toDigitsCore_eq_natChars (n + 1) n [] (by omega)]
  simp

/-- Digit characters are distinct for distinct decimal digits. -/
theorem digitChar_inj_lt : ∀ m, m < 10 → ∀ k, k < 10 →
    Nat.digitChar m = Nat.digitChar k → m = k := by decide

/-- The reference digit list determines the number. -/
theorem natChars_injective : ∀ m n : Nat, natChars m = natChars n → m = n := by
  intro m
  induction m using Nat.strong_induction_on with
  | _ m ih =>
    intro n h
    by_cases hm : m < 10 <;> by_cases hn : n < 10
    · rw [natChars_eq m, if_pos hm, natChars_eq n, if_pos hn] at h
      exact digitChar_inj_lt m hm n hn (List.cons_eq_cons.mp h).1
    · rw [natChars_eq m, if_pos hm, natChars_eq n, if_neg hn] at h
      have hlen := congrArg List.length h
      simp only [List.length_append, List.length_cons, List.length_nil] at hlen
      have hz : (natChars (n / 10)).length = 0 := by omega
      exact absurd (List.length_eq_zero.mp hz) (natChars_ne_nil _)
    · rw [natChars_eq m, if_neg hm, natChars_eq n, if_pos hn] at h
      have hlen := congrArg List.length h
      simp only [List.length_append, List.length_cons, List.length_nil] at hlen
      have hz : (natChars (m / 10)).length = 0 := by omega
      exact absurd (List.length_eq_zero.mp hz) (natChars_ne_nil _)
    · rw [natChars_eq m, if_neg hm, natChars_eq n, if_neg hn] at h
      have h2 := congrArg List.reverse h
      simp only [List.reverse_append, List.reverse_cons, List.reverse_nil,
        List.nil_append, List.cons_append, List.singleton_append] at h2
      obtain ⟨hd, htl⟩ := List.cons_eq_cons.mp h2
      have hmod : m % 10 = n % 10 :=
        digitChar_inj_lt _ (Nat.mod_lt _ (by omega)) _ (Nat.mod_lt _ (by omega)) hd
      have hdiv : m / 10 = n / 10 :=
        ih (m / 10) (by omega) (n / 10) (List.reverse_injective htl)
      omega

/-- The decimal printer is injective. -/
theorem natRepr_injective : Function.Injective Nat.repr := by
  intro m n h
  rw [natRepr_eq_natChars, natRepr_eq_natChars] at h
  exact natChars_injective m n (congrArg String.data h)

/-- Prepending a fixed prefix keeps the decimal printer injective:
distinct clock values give distinct generated ids. -/
theorem prefixRepr_injective (p : String) :
    Function.Injective (fun n : Nat => p ++ Nat.repr n) := by
  intro m n h
  apply natRepr_injective
  have hd := congrArg String.data h
  simp only [String.data_append] at hd
  exact String.ext (List.append_cancel_left hd)

/-- Length of the all-a sample text. -/
theorem sampleText_length (n : Nat) : (sampleText n).length = n := by
  simp [sampleText, String.length]

/-- The detector issues a request exactly when the length condition holds. -/
theorem sentinelCheck_requested (text : String) (prior : Option Suggestion)
    (env : SentinelEnv) :
    (sentinelCheck text prior env).requested = sentinelCond text.length := by
  unfold sentinelCheck
  split <;> simp_all

/-- Unfolding a run of creation events by one step. -/
theorem runAdds_cons (st : AppState) (op : AddOp) (rest : List AddOp) :
    runAdds st (op :: rest) = runAdds (applyAdd st op) rest := rfl

/-- Chapter ids after a run: the prior ids followed by one clock-minted id per
add-chapter event, in order. -/
theorem runAdds_chapters_ids (ops : List AddOp) :
    ∀ st : AppState, (runAdds st ops).chapters.map Chapter.id =
      st.chapters.map Chapter.id ++
        (chapterTimes ops).map (fun n => "ch-" ++ Nat.repr n) := by
  induction ops with
  | nil => intro st; simp [runAdds, chapterTimes]
  | cons op rest ih =>
    intro st
    rw [runAdds_cons, ih]
    cases op with
    | chapter nc nb => simp [applyAdd, addChapter, chapterTimes]
    | character n => simp [applyAdd, addCharacter, chapterTimes]
    | location n => simp [applyAdd, addLocation, chapterTimes]

/-- Character ids after a run: prior ids then one clock-minted id per
add-character event. -/
theorem runAdds_characters_ids (ops : List AddOp) :
    ∀ st : AppState, (runAdds st ops).characters.map Character.id =
      st.characters.map Character.id ++
        (characterTimes ops).map (fun n => "c-" ++ Nat.repr n) := by
  induction ops with
  | nil => intro st; simp [runAdds, characterTimes]
  | cons op rest ih =>
    intro st
    rw [runAdds_cons, ih]
    cases op with
    | chapter nc nb => simp [applyAdd, addChapter, characterTimes]
    | character n => simp [applyAdd, addCharacter, characterTimes]
    | location n => simp [applyAdd, addLocation, characterTimes]

/-- Location ids after a run: prior ids then one clock-minted id per
add-location event. -/
theorem runAdds_locations_ids (ops : List AddOp) :
    ∀ st : AppState, (runAdds st ops).locations.map Location.id =
      st.locations.map Location.id ++
        (locationTimes ops).map (fun n => "l-" ++ Nat.repr n) := by
  induction ops with
  | nil => intro st; simp [runAdds, locationTimes]
  | cons op rest ih =>
    intro st
    rw [runAdds_cons, ih]
    cases op with
    | chapter nc nb => simp [applyAdd, addChapter, locationTimes]
    | character n => simp [applyAdd, addCharacter, locationTimes]
    | location n => simp [applyAdd, addLocation, locationTimes]

/-- Creation events preserve per-chapter uniqueness of beat ids: each new
chapter carries a single seed beat. -/
theorem runAdds_beats_nodup (ops : List AddOp) :
    ∀ st : AppState, (∀ ch ∈ st.chapters, (ch.beats.map Beat.id).Nodup) →
      ∀ ch ∈ (runAdds st ops).chapters, (ch.beats.map Beat.id).Nodup := by
  induction ops with
  | nil => intro st h; simpa [runAdds] using h
  | cons op rest ih =>
    intro st h
    rw [runAdds_cons]
    apply ih
    cases op with
    | chapter nc nb =>
      intro ch hch
      simp only [applyAdd, addChapter, List.mem_append, List.mem_singleton] at hch
      rcases hch with hch | rfl
      · exact h ch hch
      · simp
    | character n => exact fun ch hch => h ch hch
    | location n => exact fun ch hch => h ch hch

/-! ### Claim C1 -/

/-- Counterexample to claim C1 as stated: the generated ids come from
`Date.now()`, so two add-character events in the same millisecond (both
observing clock value 0 here) produce two characters with the same id in the
characters collection. -/
theorem C1_counterexample :
    ¬ (((runAdds {} [AddOp.character 0, AddOp.character 0]).characters.map
        Character.id).Nodup) := by decide

/-- Claim C1 as amended: provided the clock values observed by the creation
events are pairwise distinct per collection, every entity produced by a
sequence of add-chapter, add-character and add-location events (starting from
the initial empty state) has an id unique within its collection, and every
chapter's seed beat ids are unique within the chapter. -/
theorem C1_add_ids_unique (ops : List AddOp)
    (hch : (chapterTimes ops).Nodup)
    (hchar : (characterTimes ops).Nodup)
    (hloc : (locationTimes ops).Nodup) :
    (((runAdds {} ops).chapters.map Chapter.id).Nodup ∧
     ((runAdds {} ops).characters.map Character.id).Nodup ∧
     ((runAdds {} ops).locations.map Location.id).Nodup) ∧
    ∀ ch ∈ (runAdds {} ops).chapters, (ch.beats.map Beat.id).Nodup := by
  refine ⟨⟨?_, ?_, ?_⟩, ?_⟩
  · rw [runAdds_chapters_ids]
    simpa using hch.map (prefixRepr_injective "ch-")
  · rw [runAdds_characters_ids]
    simpa using hchar.map (prefixRepr_injective "c-")
  · rw [runAdds_locations_ids]
    simpa using hloc.map (prefixRepr_injective "l-")
  · exact runAdds_beats_nodup ops {} (fun ch hch => absurd hch (List.not_mem_nil ch))

/-- Witness for the amended C1: a concrete run with distinct clock values has
pairwise distinct character ids. -/
theorem C1_add_ids_unique_witness :
    ((runAdds {} [AddOp.chapter 1 2, AddOp.character 3, AddOp.character 4,
        AddOp.location 5]).characters.map Character.id).Nodup :=
  (C1_add_ids_unique _ (by decide) (by decide) (by decide)).1.2.1

/-! ### Claim C5 -/

/-- Claim C5: the Incidental-Entity Detector issues a detection request if and
only if the text length is strictly greater than 50 and length mod 350 is
strictly less than 20; in particular it never fires for length at most 50,
does not fire for length 370, and does fire for length 369. -/
theorem C5_sentinel_trigger :
    (∀ (text : String) (prior : Option Suggestion) (env : SentinelEnv),
      (sentinelCheck text prior env).requested = true ↔
        (50 < text.length ∧ text.length % 350 < 20)) ∧
    (∀ (text : String) (prior : Option Suggestion) (env : SentinelEnv),
      text.length ≤ 50 → (sentinelCheck text prior env).requested = false) ∧
    (∀ (text : String) (prior : Option Suggestion) (env : SentinelEnv),
      text.length = 370 → (sentinelCheck text prior env).requested = false) ∧
    (∀ (text : String) (prior : Option Suggestion) (env : SentinelEnv),
      text.length = 369 → (sentinelCheck text prior env).requested = true) := by
  refine ⟨?_, ?_, ?_, ?_⟩ <;> intro text prior env
  · rw [sentinelCheck_requested]
    simp [sentinelCond]
  · intro h
    rw [sentinelCheck_requested]
    simp only [sentinelCond, Bool.and_eq_false_iff, decide_eq_false_iff_not]
    omega
  · intro h
    rw [sentinelCheck_requested]
    simp only [sentinelCond, h, Bool.and_eq_false_iff, decide_eq_false_iff_not]
    omega
  · intro h
    rw [sentinelCheck_requested]
    simp only [sentinelCond, h]
    decide

/-- Witness for C5: a 369-character text fires the detector and a
370-character text does not. -/
theorem C5_sentinel_trigger_witness :
    (sentinelCheck (sampleText 369) none envC5).requested = true ∧
    (sentinelCheck (sampleText 370) none envC5).requested = false :=
  ⟨C5_sentinel_trigger.2.2.2 (sampleText 369) none envC5 (sampleText_length 369),
   C5_sentinel_trigger.2.2.1 (sampleText 370) none envC5 (sampleText_length 370)⟩

/-! ### Claim C10 -/

/-- Claim C10: when the detector fails (gateway rejection, parse failure, or
no truthy found field), `sentinelCheck` produces no suggestion and raises no
error past its boundary: the outcome is always a normal return, and in every
failure mode the suggestion slot keeps its prior value. -/
theorem C10_sentinel_fail_silent :
    (∀ (text : String) (prior : Option Suggestion) (env : SentinelEnv),
      ∃ s, (sentinelCheck text prior env).outcome = Except.ok s) ∧
    (∀ (text : String) (prior : Option Suggestion) (env : SentinelEnv),
      sentinelFailed env →
        (sentinelCheck text prior env).outcome = Except.ok prior) := by
  constructor
  · intro text prior env
    unfold sentinelCheck
    split
    · exact ⟨_, rfl⟩
    · exact ⟨prior, rfl⟩
  · intro text prior env hf
    unfold sentinelCheck
    split
    · rcases hf with hchat | ⟨res, hres, hparse⟩ | ⟨res, data, hres, hparse, hfound⟩
      · simp only [hchat, exceptBindErr]
      · simp only [hres, exceptBindOk, hparse, exceptBindErr]
      · simp only [hres, exceptBindOk, hparse, hfound]
        rfl
    · rfl

/-- Witness for C10: a rejected gateway call leaves an empty suggestion slot
empty and returns normally. -/
theorem C10_sentinel_fail_silent_witness :
    (sentinelCheck (sampleText 369) none envC10fail).outcome = Except.ok none :=
  C10_sentinel_fail_silent.2 (sampleText 369) none envC10fail (Or.inl rfl)

/-! ### Claim C9 -/

/-- Claim C9: with an unknown chapter id, or with no beat carrying the beat id
inside any chapter carrying the chapter id, `updateBeatDraft` leaves the
chapters collection unchanged (a silent no-op); when the two ids locate a
unique chapter and a unique beat inside it, exactly that beat's draft is
replaced by the new text, and every other field, beat and chapter is
unchanged. -/
theorem C9_updateBeatDraft_semantics
    (chapters : List Chapter) (chapterId beatId t : String) :
    (chapterId ∉ chapters.map Chapter.id →
      updateBeatDraft chapters chapterId beatId t = chapters) ∧
    ((∀ ch ∈ chapters, ch.id = chapterId → beatId ∉ ch.beats.map Beat.id) →
      updateBeatDraft chapters chapterId beatId t = chapters) ∧
    (∀ pre tc post bpre tb bpost,
      chapters = pre ++ tc :: post →
      tc.id = chapterId →
      chapterId ∉ pre.map Chapter.id →
      chapterId ∉ post.map Chapter.id →
      tc.beats = bpre ++ tb :: bpost →
      tb.id = beatId →
      beatId ∉ bpre.map Beat.id →
      beatId ∉ bpost.map Beat.id →
      updateBeatDraft chapters chapterId beatId t =
        pre ++ { tc with beats := bpre ++ { tb with draft := some t } :: bpost }
          :: post) := by
  refine ⟨?_, ?_, ?_⟩
  · intro h
    unfold updateBeatDraft
    refine (List.map_congr_left ?_).trans (List.map_id chapters)
    intro ch hch
    have hne : ch.id ≠ chapterId := fun heq =>
      h (heq ▸ List.mem_map_of_mem Chapter.id hch)
    simp [if_neg hne]
  · intro h
    unfold updateBeatDraft
    refine (List.map_congr_left ?_).trans (List.map_id chapters)
    intro ch hch
    by_cases hc : ch.id = chapterId
    · have hb : ∀ bt ∈ ch.beats, bt.id ≠ beatId := by
        intro bt hbt heq
        exact (h ch hch hc) (heq ▸ List.mem_map_of_mem Beat.id hbt)
      have hmap : ch.beats.map
          (fun bt => if bt.id = beatId then { bt with draft := some t } else bt) =
            ch.beats :=
        (List.map_congr_left (fun bt hbt => by simp [if_neg (hb bt hbt)])).trans
          (List.map_id ch.beats)
      simp only [if_pos hc, hmap, id_eq]
    · simp [if_neg hc]
  · intro pre tc post bpre tb bpost hsplit hid hpre hpost hbsplit hbid hbpre hbpost
    subst hsplit
    unfold updateBeatDraft
    rw [List.map_append, List.map_cons]
    have hpreid : pre.map
        (fun ch => if ch.id = chapterId then
          { ch with beats := ch.beats.map fun bt =>
              if bt.id = beatId then { bt with draft := some t } else bt }
          else ch) = pre := by
      refine (List.map_congr_left ?_).trans (List.map_id pre)
      intro ch hch
      have hne : ch.id ≠ chapterId := fun heq =>
        hpre (heq ▸ List.mem_map_of_mem Chapter.id hch)
      simp [if_neg hne]
    have hpostid : post.map
        (fun ch => if ch.id = chapterId then
          { ch with beats := ch.beats.map fun bt =>
              if bt.id = beatId then { bt with draft := some t } else bt }
          else ch) = post := by
      refine (List.map_congr_left ?_).trans (List.map_id post)
      intro ch hch
      have hne : ch.id ≠ chapterId := fun heq =>
        hpost (heq ▸ List.mem_map_of_mem Chapter.id hch)
      simp [if_neg hne]
    have hbpreid : bpre.map
        (fun bt => if bt.id = beatId then { bt with draft := some t } else bt) = bpre := by
      refine (List.map_congr_left ?_).trans (List.map_id bpre)
      intro bt hbt
      have hne : bt.id ≠ beatId := fun heq =>
        hbpre (heq ▸ List.mem_map_of_mem Beat.id hbt)
      simp [if_neg hne]
    have hbpostid : bpost.map
        (fun bt => if bt.id = beatId then { bt with draft := some t } else bt) = bpost := by
      refine (List.map_congr_left ?_).trans (List.map_id bpost)
      intro bt hbt
      have hne : bt.id ≠ beatId := fun heq =>
        hbpost (heq ▸ List.mem_map_of_mem Beat.id hbt)
      simp [if_neg hne]
    rw [hpreid, hpostid, if_pos hid, hbsplit, List.map_append, List.map_cons,
      hbpreid, hbpostid, if_pos hbid]

/-- Witness for C9: updating the second beat of the second chapter of a
concrete two-chapter state changes exactly that beat's draft. -/
theorem C9_updateBeatDraft_semantics_witness :
    updateBeatDraft [chWA, chWB] "ch-B" "b-30" "fresh words" =
      [chWA] ++ { chWB with beats := [bW2] ++ { bW3 with draft := some "fresh words" }
        :: [] } :: [] :=
  (C9_updateBeatDraft_semantics [chWA, chWB] "ch-B" "b-30" "fresh words").2.2
    [chWA] chWB [] [bW2] bW3 [] rfl rfl (by decide) (by decide) rfl rfl
    (by decide) (by decide)

/-! ### Claim C3 -/

/-- Counterexample to claim C3 as stated: when the extraction carries
chapters, the merge step hands them to `setChapters` as a full replacement,
so a chapter present before the import is no longer present afterwards. -/
theorem C3_counterexample :
    chOld ∈ stC3.chapters ∧
    chOld ∉ (importExtracted stC3 extC3 rndC3).chapters := by
  exact ⟨by decide, by decide⟩

/-- Claim C3 as amended: the import appends the re-keyed extracted characters
and locations to the existing collections, preserving every pre-existing
character and location (the result is exactly the old list followed by the
re-keyed extracted ones, or the old list alone when the field is absent); but
the chapters collection is replaced wholesale by the re-keyed extracted
chapters whenever the extraction carries a chapters field (pre-existing
chapters are discarded), and is untouched when it does not. -/
theorem C3_import_merge (st : AppState) (ext : Extraction) (rnd : Nat → String) :
    ((importExtracted st ext rnd).characters.take st.characters.length =
      st.characters) ∧
    ((importExtracted st ext rnd).locations.take st.locations.length =
      st.locations) ∧
    (∀ c ∈ st.characters, c ∈ (importExtracted st ext rnd).characters) ∧
    (∀ l ∈ st.locations, l ∈ (importExtracted st ext rnd).locations) ∧
    (ext.chapters = none → (importExtracted st ext rnd).chapters = st.chapters) ∧
    (∀ ecs, ext.chapters = some ecs →
      (importExtracted st ext rnd).chapters = (freshChapters rnd ecs 0).1) ∧
    (ext.characters = none →
      (importExtracted st ext rnd).characters = st.characters) ∧
    (∀ ecs, ext.characters = some ecs →
      (importExtracted st ext rnd).characters =
        st.characters ++
          (freshCharacters rnd ecs (importChapterPart st ext rnd).2).1) ∧
    (ext.locations = none →
      (importExtracted st ext rnd).locations = st.locations) ∧
    (∀ els, ext.locations = some els →
      (importExtracted st ext rnd).locations =
        st.locations ++
          (freshLocations rnd els (importCharacterPart st ext rnd).2).1) := by
  refine ⟨List.take_left _ _, List.take_left _ _, ?_, ?_, ?_, ?_, ?_, ?_, ?_, ?_⟩
  · exact fun c hc => List.mem_append_left _ hc
  · exact fun l hl => List.mem_append_left _ hl
  · intro h
    simp [importExtracted, importChapterPart, h]
  · intro ecs h
    simp [importExtracted, importChapterPart, h]
  · intro h
    simp [importExtracted, importCharacterPart, h]
  · intro ecs h
    simp [importExtracted, importCharacterPart, h]
  · intro h
    simp [importExtracted, importLocationPart, h]
  · intro els h
    simp [importExtracted, importLocationPart, h]

/-- Witness for the amended C3: one concrete import replaces the chapters by
the re-keyed extracted ones, and another appends the re-keyed extracted
character after the pre-existing characters. -/
theorem C3_import_merge_witness :
    ((importExtracted stC3 extC3 rndC3).chapters =
      (freshChapters rndC3 [{ title := "New", beats := [] }] 0).1) ∧
    ((importExtracted stC3 extC3c rndC3).characters =
      stC3.characters ++
        (freshCharacters rndC3
          [{ name := "Smith", role := "Secondary", description := "forges" }]
          (importChapterPart stC3 extC3c rndC3).2).1) :=
  ⟨(C3_import_merge stC3 extC3 rndC3).2.2.2.2.2.1 [{ title := "New", beats := [] }] rfl,
   (C3_import_merge stC3 extC3c rndC3).2.2.2.2.2.2.2.1
     [{ name := "Smith", role := "Secondary", description := "forges" }] rfl⟩

/-! ### Claim C7 -/

/-- Every re-keyed beat carries an id minted from a draw with the beat
prefix. -/
theorem freshBeats_shape (rnd : Nat → String) :
    ∀ (bs : List ExtBeat) (k : Nat), ∀ b ∈ (freshBeats rnd bs k).1,
      ∃ j, b.id = "b-" ++ rnd j := by
  intro bs
  induction bs with
  | nil => intro k b hb; simp [freshBeats] at hb
  | cons hd tl ih =>
    intro k b hb
    simp only [freshBeats, List.mem_cons] at hb
    rcases hb with rfl | hb
    · exact ⟨k, rfl⟩
    · exact ih (k + 1) b hb

/-- Every re-keyed chapter carries a draw-minted id, and so does each of its
beats. -/
theorem freshChapters_shape (rnd : Nat → String) :
    ∀ (ecs : List ExtChapter) (k : Nat), ∀ ch ∈ (freshChapters rnd ecs k).1,
      (∃ j, ch.id = "ch-" ++ rnd j) ∧ ∀ b ∈ ch.beats, ∃ j, b.id = "b-" ++ rnd j := by
  intro ecs
  induction ecs with
  | nil => intro k ch hch; simp [freshChapters] at hch
  | cons hd tl ih =>
    intro k ch hch
    simp only [freshChapters, List.mem_cons] at hch
    rcases hch with rfl | hch
    · exact ⟨⟨k, rfl⟩, fun b hb => freshBeats_shape rnd hd.beats (k + 1) b hb⟩
    · exact ih _ ch hch

/-- Every re-keyed character carries a draw-minted id. -/
theorem freshCharacters_shape (rnd : Nat → String) :
    ∀ (ecs : List ExtCharacter) (k : Nat), ∀ c ∈ (freshCharacters rnd ecs k).1,
      ∃ j, c.id = "c-" ++ rnd j := by
  intro ecs
  induction ecs with
  | nil => intro k c hc; simp [freshCharacters] at hc
  | cons hd tl ih =>
    intro k c hc
    simp only [freshCharacters, List.mem_cons] at hc
    rcases hc with rfl | hc
    · exact ⟨k, rfl⟩
    · exact ih (k + 1) c hc

/-- Every re-keyed location carries a draw-minted id. -/
theorem freshLocations_shape (rnd : Nat → String) :
    ∀ (els : List ExtLocation) (k : Nat), ∀ l ∈ (freshLocations rnd els k).1,
      ∃ j, l.id = "l-" ++ rnd j := by
  intro els
  induction els with
  | nil => intro k l hl; simp [freshLocations] at hl
  | cons hd tl ih =>
    intro k l hl
    simp only [freshLocations, List.mem_cons] at hl
    rcases hl with rfl | hl
    · exact ⟨k, rfl⟩
    · exact ih (k + 1) l hl

/-- Counterexample to claim C7 as stated: no freshness check guards the
random draws, so a draw that reproduces the suffix of a pre-existing id makes
the import emit an entity whose id was already present before the import. -/
theorem C7_counterexample :
    "c-Z" ∈ stC7.characters.map Character.id ∧
    (importExtracted stC7 extC7 rndC7).characters.map Character.id =
      ["c-Z", "c-Z"] := by
  exact ⟨by decide, by decide⟩

/-- Claim C7 as amended: every entity produced by the import is re-keyed with
an id of the form prefix plus random draw (any AI-supplied id is discarded),
and provided no draw reproduces the suffix of a pre-existing id, no produced
chapter, beat, character or location carries an id present before the
import. -/
theorem C7_import_fresh_ids (st : AppState) (ext : Extraction) (rnd : Nat → String)
    (hfresh : ∀ j, ("ch-" ++ rnd j) ∉ allIds st ∧ ("b-" ++ rnd j) ∉ allIds st ∧
      ("c-" ++ rnd j) ∉ allIds st ∧ ("l-" ++ rnd j) ∉ allIds st) :
    (∀ ecs, ext.chapters = some ecs →
      ∀ ch ∈ (importExtracted st ext rnd).chapters,
        ((∃ j, ch.id = "ch-" ++ rnd j) ∧ ch.id ∉ allIds st) ∧
        ∀ b ∈ ch.beats, (∃ j, b.id = "b-" ++ rnd j) ∧ b.id ∉ allIds st) ∧
    (∀ c ∈ (importExtracted st ext rnd).characters.drop st.characters.length,
      (∃ j, c.id = "c-" ++ rnd j) ∧ c.id ∉ allIds st) ∧
    (∀ l ∈ (importExtracted st ext rnd).locations.drop st.locations.length,
      (∃ j, l.id = "l-" ++ rnd j) ∧ l.id ∉ allIds st) := by
  refine ⟨?_, ?_, ?_⟩
  · intro ecs h ch hch
    have hrw : (importExtracted st ext rnd).chapters = (freshChapters rnd ecs 0).1 := by
      simp [importExtracted, importChapterPart, h]
    rw [hrw] at hch
    obtain ⟨⟨j, hj⟩, hb⟩ := freshChapters_shape rnd ecs 0 ch hch
    refine ⟨⟨⟨j, hj⟩, by rw [hj]; exact (hfresh j).1⟩, ?_⟩
    intro b hbmem
    obtain ⟨j2, hj2⟩ := hb b hbmem
    exact ⟨⟨j2, hj2⟩, by rw [hj2]; exact (hfresh j2).2.1⟩
  · intro c hc
    rw [show (importExtracted st ext rnd).characters =
        st.characters ++ (importCharacterPart st ext rnd).1 from rfl,
      List.drop_left _ _] at hc
    have hshape : ∃ j, c.id = "c-" ++ rnd j := by
      cases hcr : ext.characters with
      | none =>
        rw [show (importCharacterPart st ext rnd).1 = [] from by
          simp [importCharacterPart, hcr]] at hc
        simp at hc
      | some ecs =>
        rw [show (importCharacterPart st ext rnd).1 =
            (freshCharacters rnd ecs (importChapterPart st ext rnd).2).1 from by
          simp [importCharacterPart, hcr]] at hc
        exact freshCharacters_shape rnd ecs _ c hc
    obtain ⟨j, hj⟩ := hshape
    exact ⟨⟨j, hj⟩, by rw [hj]; exact (hfresh j).2.2.1⟩
  · intro l hl
    rw [show (importExtracted st ext rnd).locations =
        st.locations ++ importLocationPart st ext rnd from rfl,
      List.drop_left _ _] at hl
    have hshape : ∃ j, l.id = "l-" ++ rnd j := by
      cases hlo : ext.locations with
      | none =>
        rw [show importLocationPart st ext rnd = [] from by
          simp [importLocationPart, hlo]] at hl
        simp at hl
      | some els =>
        rw [show importLocationPart st ext rnd =
            (freshLocations rnd els (importCharacterPart st ext rnd).2).1 from by
          simp [importLocationPart, hlo]] at hl
        exact freshLocations_shape rnd els _ l hl
    obtain ⟨j, hj⟩ := hshape
    exact ⟨⟨j, hj⟩, by rw [hj]; exact (hfresh j).2.2.2⟩

/-- Witness for the amended C7: the character produced by a concrete import
with non-colliding draws carries an id absent from the pre-import state. -/
theorem C7_import_fresh_ids_witness :
    ({ id := "c-w", name := "Lantern Bearer", role := "Secondary",
       description := "seen once", traits := [] } : Character).id ∉ allIds stC7w :=
  ((C7_import_fresh_ids stC7w extC7w rndW
      (fun _ => ⟨show "ch-w" ∉ allIds stC7w by decide,
        show "b-w" ∉ allIds stC7w by decide,
        show "c-w" ∉ allIds stC7w by decide,
        show "l-w" ∉ allIds stC7w by decide⟩)).2.1
    { id := "c-w", name := "Lantern Bearer", role := "Secondary",
      description := "seen once", traits := [] } (by decide)).2

/-! ### Claim C2 -/

/-- Counterexample to claim C2 as stated: with a prior analysis stored and a
rejecting gateway call, the stored analysis is indeed unchanged, but the
rejection escapes past the `runAnalysis` boundary (the source wraps the await
in try/finally with no catch), so "no exception propagates" is false. -/
theorem C2_counterexample :
    (runAnalysis stC2 envC2fail).1 = Except.error () ∧
    stC2.analysis = some priorAnalysis := by
  constructor <;> rfl

/-- Claim C2 as amended: when the `analyzePlot` call made by `runAnalysis`
fails, the stored analysis is left unchanged and the loading flag is cleared
by the finally block, but the exception does propagate past the `runAnalysis`
call boundary. -/
theorem C2_failed_analysis_keeps_state (st : AppState) (env : AnalyzeEnv) (e : Unit)
    (h : analyzePlot env = .error e) :
    (runAnalysis st env).2.analysis = st.analysis ∧
    (runAnalysis st env).2.loading = false ∧
    (runAnalysis st env).1 = .error e := by
  simp [runAnalysis, h]

/-- Witness for the amended C2: the rejecting environment leaves the prior
analysis in place. -/
theorem C2_failed_analysis_keeps_state_witness :
    (runAnalysis stC2 envC2fail).2.analysis = stC2.analysis ∧
    (runAnalysis stC2 envC2fail).2.loading = false :=
  ⟨(C2_failed_analysis_keeps_state stC2 envC2fail () rfl).1,
   (C2_failed_analysis_keeps_state stC2 envC2fail () rfl).2.1⟩

/-! ### Claim C4 -/

/-- Claim C4, settled against the code as a bug report: the snapshot is built
by concatenating chapter titles and beat drafts in order (falling back to the
scratchpad when no chapters exist), but the argument tuple `runAnalysis`
passes to `analyzePlot` never contains it: two states differing only in the
scratchpad (hence with different snapshots) produce the identical request. -/
theorem C4_snapshot_not_sent :
    (∀ (st : AppState) (t2 : String),
      runAnalysisRequest { st with scratchpadText := t2 } = runAnalysisRequest st) ∧
    manuscriptSnapshot stSnapA = "A lone rider crossed the dunes." ∧
    manuscriptSnapshot stSnapB = "" ∧
    runAnalysisRequest stSnapA = runAnalysisRequest stSnapB ∧
    manuscriptSnapshot stTwoCh = "Chapter: One\nalpha\nbeta\n\nChapter: Two\ngamma" := by
  refine ⟨fun st t2 => rfl, ?_, ?_, ?_, ?_⟩ <;> rfl

/-! ### Claim C6 -/

/-- Claim C6: accepting an outstanding character suggestion appends exactly
one character carrying a clock-minted id, the suggestion's name and
description, role Secondary and an empty trait set; the suggestion slot is
cleared, pre-existing characters and the other collections are untouched, and
the result ignores any id the AI volunteered with the suggestion. -/
theorem C6_inscribe_character (st : AppState) (sugg : Suggestion) (now : Nat)
    (h : sugg.type = "character") :
    (inscribeSuggestion st sugg now).characters =
      st.characters ++
        [{ id := "c-" ++ Nat.repr now, name := sugg.data.name, role := "Secondary",
           description := sugg.data.description, traits := [] }] ∧
    (inscribeSuggestion st sugg now).suggestedEntity = none ∧
    (inscribeSuggestion st sugg now).locations = st.locations ∧
    (inscribeSuggestion st sugg now).chapters = st.chapters ∧
    (∀ aid, inscribeSuggestion st
        { sugg with data := { sugg.data with extraId := aid } } now =
      inscribeSuggestion st sugg now) := by
  refine ⟨?_, ?_, ?_, ?_, ?_⟩ <;> simp [inscribeSuggestion, h]

/-- Witness for C6: inscribing the example suggestion at clock value 42 on
the empty state yields exactly one Secondary character and an empty slot. -/
theorem C6_inscribe_character_witness :
    (inscribeSuggestion {} suggThorne 42).characters =
      [{ id := "c-" ++ Nat.repr 42, name := "Thorne", role := "Secondary",
         description := "A wandering smith", traits := [] }] ∧
    (inscribeSuggestion {} suggThorne 42).suggestedEntity = none :=
  ⟨(C6_inscribe_character {} suggThorne 42 rfl).1,
   (C6_inscribe_character {} suggThorne 42 rfl).2.1⟩

/-! ### Claim C8 -/

/-- Claim C8: when the entity targeted by an in-flight image generation has
been deleted from its collection before the response arrives, the write-back
mutates nothing: the state is exactly as it was. -/
theorem C8_stale_visual_dropped (ty : VisualType) (id : String) (url : Option String)
    (st : AppState)
    (hc : ty = VisualType.character → id ∉ st.characters.map Character.id)
    (hl : ty = VisualType.location → id ∉ st.locations.map Location.id) :
    resolveVisual ty id url st = st := by
  cases url with
  | none => rfl
  | some u =>
    by_cases hu : u.isEmpty = true
    · simp [resolveVisual, hu]
    · cases ty with
      | character =>
        have hmap : st.characters.map
            (fun c => if c.id = id then { c with imageUrl := some u } else c) =
              st.characters := by
          refine (List.map_congr_left ?_).trans (List.map_id st.characters)
          intro c hcm
          have hne : c.id ≠ id := fun heq =>
            (hc rfl) (heq ▸ List.mem_map_of_mem Character.id hcm)
          simp [if_neg hne]
        simp [resolveVisual, hu, hmap]
      | location =>
        have hmap : st.locations.map
            (fun l => if l.id = id then { l with imageUrl := some u } else l) =
              st.locations := by
          refine (List.map_congr_left ?_).trans (List.map_id st.locations)
          intro l hlm
          have hne : l.id ≠ id := fun heq =>
            (hl rfl) (heq ▸ List.mem_map_of_mem Location.id hlm)
          simp [if_neg hne]
        simp [resolveVisual, hu, hmap]

/-- Witness for C8: a resolving image request keyed to a deleted character id
leaves a concrete populated state untouched. -/
theorem C8_stale_visual_dropped_witness :
    resolveVisual VisualType.character "c-gone"
      (some "data:image/png;base64,xyz") stC8 = stC8 :=
  C8_stale_visual_dropped VisualType.character "c-gone"
    (some "data:image/png;base64,xyz") stC8
    (fun _ => by decide) (fun h => VisualType.noConfusion h)

end Inkwell
